import Mathlib

/-!
Verification of the RunItUp Discord bot (points/tier/submission engine).

Shallow embedding of the Python sources:
  src/config/constants.py, src/database/models.py,
  src/cogs/admin.py, src/cogs/members.py, src/cogs/leaderboard.py,
  src/cogs/submissions.py

The hosted database is modelled as an explicit record of table rows
(`DB`); each model/handler operation is a pure state transformer.  A
result of `(db, none)` means a Python exception escaped the operation
with `db` the persisted state at raise time (supabase writes are
per-statement; there are no transactions).  Timestamp columns
(`updated_at`, `reviewed_at`, `created_at`) carry no logic and are not
modelled; calendar dates are abstract integers passed explicitly where
the Python code calls `date.today()`.
-/

namespace RunItUp

/-! ## Configuration constants (src/config/constants.py) -/

/-- The integer-valued entries of the `POINTS` dict in
src/config/constants.py.  The key `"REACTION": 0.25` (the dict's only
non-integer value) is never read by any code path and is omitted so
that point arithmetic stays in `Int`, as it is in the Python code for
every key that is actually used. -/
def POINTS : List (String × Int) :=
  [("DAILY_ACTIVITY", 1),
   ("FIRE_EMOJI", 3),
   ("GEM_EMOJI", 3),
   ("HUNDRED_EMOJI", 5),
   ("PINNED", 15),
   ("FIRST_SALE", 3),
   ("WIN_100", 5),
   ("WIN_500", 15),
   ("WIN_1K", 30),
   ("WIN_5K", 75),
   ("CASE_STUDY", 25),
   ("WHOP_REFERRAL", 10),
   ("DISCORD_REFERRAL", 5)]

/-- Dictionary lookup `POINTS[key]` (every key used by the code is
present, so the default is never hit on a real code path). -/
def pointsOf (key : String) : Int :=
  match POINTS.find? (fun kv => kv.1 == key) with
  | some kv => kv.2
  | none => 0

/-- One bucket of the `TIERS` table: `min`/`max` bounds (Python
`float("inf")` upper bound modelled as `none`), role name, emoji. -/
structure TierData where
  min : Int
  max : Option Int
  role_name : String
  emoji : String
deriving Repr, DecidableEq

/-- The static ordered `TIERS` table from src/config/constants.py,
in Python dict insertion order. -/
def TIERS : List (String × TierData) :=
  [("OBSERVER", ⟨0, some 49, "Q1 — Challenger", "🟤"⟩),
   ("BUILDER", ⟨50, some 149, "Q1 — Builder", "🟢"⟩),
   ("OPERATOR", ⟨150, some 299, "Q1 — Operator", "🔵"⟩),
   ("ELITE", ⟨300, none, "Q1 — Elite", "🟣"⟩)]

/-- Limit `MAX_VALUE_POSTS_PER_DAY = 2` (src/config/constants.py). -/
def MAX_VALUE_POSTS_PER_DAY : Nat := 2

/-- Limit `MAX_POINTS_PER_POST = 30` (src/config/constants.py). -/
def MAX_POINTS_PER_POST : Int := 30

/-! ## Table rows and database state -/

/-- A row of the `users` table. -/
structure UserRow where
  user_id : Int
  username : String
  total_points : Int
  tier : String
  is_scaler : Bool
  referral_count : Int
deriving Repr, DecidableEq

/-- A row of the append-only `points_history` table. -/
structure HistoryRow where
  user_id : Int
  points_change : Int
  reason : String
deriving Repr, DecidableEq

/-- A row of the `submissions` table. -/
structure SubmissionRow where
  id : Int
  user_id : Int
  submission_type : String
  status : String
  description : Option String
  proof_url : Option String
  amount : Option ℚ
  referral_type : Option String
  points_awarded : Option Int
  reviewed_by : Option Int
deriving Repr, DecidableEq

/-- A row of the `value_posts` table. -/
structure ValuePostRow where
  user_id : Int
  message_id : Int
  channel_id : Int
  post_date : Int
  fire_count : Int
  gem_count : Int
  hundred_count : Int
  is_pinned : Bool
  total_points : Int
deriving Repr, DecidableEq

/-- A row of the `daily_activity` table. -/
structure ActivityRow where
  id : Int
  user_id : Int
  activity_date : Int
  message_count : Int
  points_awarded : Int
deriving Repr, DecidableEq

/-- The persisted database state: the five tables of §3 of the spec,
plus a fresh-id counter standing for the backend's id assignment. -/
structure DB where
  users : List UserRow
  points_history : List HistoryRow
  submissions : List SubmissionRow
  value_posts : List ValuePostRow
  daily_activity : List ActivityRow
  next_id : Int
deriving Repr, DecidableEq

/-! ## UserModel (src/database/models.py) -/

/-- Membership test `tier_data["min"] <= points <= tier_data["max"]`
from `UserModel.calculate_tier`, with `float("inf")` as `none`. -/
def tierMatches (points : Int) (t : TierData) : Bool :=
  decide (t.min ≤ points) &&
    (match t.max with
     | some m => decide (points ≤ m)
     | none => true)

/-- `UserModel.calculate_tier` (models.py lines 86-92): iterate the
`TIERS` dict in order, return the first bucket containing `points`,
fall through to `"OBSERVER"`. -/
def UserModel.calculate_tier (points : Int) : String :=
  match TIERS.find? (fun kv => tierMatches points kv.2) with
  | some kv => kv.1
  | none => "OBSERVER"

/-- Modelled from the spec: "recompute tier via ordered range lookup
(first matching `[min,max]` bucket, default to lowest tier if none
match)" with buckets "boundary-inclusive at both ends".  This is the
spec-side lookup, to be compared with `UserModel.calculate_tier`. -/
def specTier (total : Int) : String :=
  match TIERS.find?
      (fun bucket =>
        decide (bucket.2.min ≤ total) &&
          (match bucket.2.max with
           | some hi => decide (total ≤ hi)
           | none => true)) with
  | some bucket => bucket.1
  | none => "OBSERVER"

/-- `UserModel.get_by_id`: first `users` row matching `user_id`. -/
def UserModel.get_by_id (db : DB) (user_id : Int) : Option UserRow :=
  db.users.find? (fun u => u.user_id == user_id)

/-- `UserModel.get_or_create`: return the existing row, or insert a
fresh row with 0 points / OBSERVER / no referrals. -/
def UserModel.get_or_create (db : DB) (user_id : Int) (username : String) :
    DB × UserRow :=
  match db.users.find? (fun u => u.user_id == user_id) with
  | some u => (db, u)
  | none =>
    let new_user : UserRow :=
      { user_id := user_id, username := username, total_points := 0,
        tier := "OBSERVER", is_scaler := false, referral_count := 0 }
    ({ db with users := db.users ++ [new_user] }, new_user)

/-- `UserModel.update_points` (models.py lines 43-84): read the current
total, add the delta (no floor), recompute the tier, persist the new
total and tier, append a history entry.  When the user row is missing
the Python code raises (`user["total_points"]` on `None`) before any
write, which is the `(db, none)` case. -/
def UserModel.update_points (db : DB) (user_id points_change : Int)
    (reason : String) : DB × Option UserRow :=
  match UserModel.get_by_id db user_id with
  | none => (db, none)
  | some user =>
    let new_total := user.total_points + points_change
    let new_tier := UserModel.calculate_tier new_total
    let upd : UserRow → UserRow := fun u =>
      { u with total_points := new_total, tier := new_tier }
    let db1 : DB := { db with
      users := db.users.map (fun (u : UserRow) =>
        if u.user_id == user_id then upd u else u) }
    let db2 : DB := { db1 with
      points_history := db1.points_history ++
        [({ user_id := user_id, points_change := points_change,
            reason := reason } : HistoryRow)] }
    (db2, some (upd user))

/-- `UserModel.set_scaler`: set the `is_scaler` flag on the user row
and return the updated row (raises, `(db, none)`, when no row). -/
def UserModel.set_scaler (db : DB) (user_id : Int) (is_scaler : Bool) :
    DB × Option UserRow :=
  let db1 : DB := { db with
    users := db.users.map (fun (u : UserRow) =>
      if u.user_id == user_id then { u with is_scaler := is_scaler } else u) }
  match db1.users.find? (fun u => u.user_id == user_id) with
  | some u => (db1, some u)
  | none => (db1, none)

/-! ## Helper observations used by several theorems -/

/-- The points-relevant projection of a user row: total and tier. -/
def userPoints (db : DB) (uid : Int) : Option (Int × String) :=
  (UserModel.get_by_id db uid).map (fun u => (u.total_points, u.tier))

/-- The referral counter of a user, when the row exists. -/
def userReferrals (db : DB) (uid : Int) : Option Int :=
  (UserModel.get_by_id db uid).map (fun u => u.referral_count)

/-- First `value_posts` row for a message id. -/
def findPost (db : DB) (message_id : Int) : Option ValuePostRow :=
  db.value_posts.find? (fun p => p.message_id == message_id)

/-! ## Example rows and databases for witness theorems -/

/-- Example user at 45 points (the spec's §8 scenario starting point). -/
def exUser : UserRow :=
  { user_id := 1, username := "alice", total_points := 45,
    tier := "OBSERVER", is_scaler := false, referral_count := 0 }

/-- Example database holding just `exUser`. -/
def exDB : DB :=
  { users := [exUser], points_history := [], submissions := [],
    value_posts := [], daily_activity := [], next_id := 1 }

/-- A user whose running total has been driven to −5000, reachable
because no floor is enforced on negative deltas. -/
def negUser : UserRow :=
  { user_id := 7, username := "deep", total_points := -5000,
    tier := "OBSERVER", is_scaler := false, referral_count := 0 }

/-- Database holding just `negUser`. -/
def negDB : DB :=
  { users := [negUser], points_history := [], submissions := [],
    value_posts := [], daily_activity := [], next_id := 1 }

/-! ## SubmissionModel (src/database/models.py) -/

/-- First `submissions` row matching an id (the handlers' and the
model's `select * where id = submission_id` followed by `data[0]`). -/
def findSubmission (db : DB) (submission_id : Int) : Option SubmissionRow :=
  db.submissions.find? (fun s => s.id == submission_id)

/-- `SubmissionModel.create`: insert a new submission with status
`"pending"`, id assigned by the backend. -/
def SubmissionModel.create (db : DB) (user_id : Int) (submission_type : String)
    (description proof_url : Option String) (amount : Option ℚ)
    (referral_type : Option String) : DB × SubmissionRow :=
  let row : SubmissionRow :=
    { id := db.next_id, user_id := user_id,
      submission_type := submission_type, status := "pending",
      description := description, proof_url := proof_url, amount := amount,
      referral_type := referral_type, points_awarded := none,
      reviewed_by := none }
  ({ db with
      submissions := db.submissions ++ [row],
      next_id := db.next_id + 1 }, row)

/-- `SubmissionModel.approve` (models.py lines 400-448): fetch the
submission (ValueError when missing — the `(db, none)` case), then
unconditionally set status `"approved"` / `points_awarded` /
`reviewed_by`, then award the points to the submitter via
`update_points`.  Note: there is no pending-status check at this
level; the only status guard in the program lives in the button
handlers. -/
def SubmissionModel.approve (db : DB) (submission_id reviewed_by points : Int) :
    DB × Option SubmissionRow :=
  match findSubmission db submission_id with
  | none => (db, none)
  | some submission =>
    let upd : SubmissionRow → SubmissionRow := fun s =>
      { s with
          status := "approved",
          points_awarded := some points,
          reviewed_by := some reviewed_by }
    let db1 : DB := { db with
      submissions := db.submissions.map (fun (s : SubmissionRow) =>
        if s.id == submission_id then upd s else s) }
    match UserModel.update_points db1 submission.user_id points
        (submission.submission_type ++ " approved") with
    | (db2, some _) => (db2, some (upd submission))
    | (db2, none) => (db2, none)

/-- `SubmissionModel.reject` (models.py lines 450-474): unconditionally
set status `"rejected"` / `reviewed_by` on the matching row and return
it; `response.data[0]` raises (the `none` case) when no row matched.
No pending-status check at this level either, and no point mutation. -/
def SubmissionModel.reject (db : DB) (submission_id reviewed_by : Int) :
    DB × Option SubmissionRow :=
  let db1 : DB := { db with
    submissions := db.submissions.map (fun (s : SubmissionRow) =>
      if s.id == submission_id then
        { s with status := "rejected", reviewed_by := some reviewed_by }
      else s) }
  match findSubmission db submission_id with
  | some submission =>
    (db1, some { submission with
                  status := "rejected",
                  reviewed_by := some reviewed_by })
  | none => (db1, none)

/-! ## Submission review handlers (src/cogs/submissions.py) -/

/-- Observable result reported back to the clicking moderator by a
button handler. -/
inductive Outcome where
  | success (points : Int)
  | rejected
  | alreadyProcessed (status : String)
  | notFound
  | noPermission
  | invalidInput
  | errorCaught
deriving Repr, DecidableEq

/-- Tail of `SubmissionView.approve_button` once the award amount is
fixed: run `SubmissionModel.approve` and report the outcome (a raise
inside it is caught by the handler's generic except branch). -/
def finishApprove (db : DB) (submission_id reviewer points : Int) :
    DB × Outcome :=
  match SubmissionModel.approve db submission_id reviewer points with
  | (db', some _) => (db', Outcome.success points)
  | (db', none) => (db', Outcome.errorCaught)

/-- `SubmissionView.approve_button` (submissions.py lines 295-403):
permission gate; fetch the submission; conflict-check that it is still
`"pending"`; compute the award from the win amount bracket or the
referral type (referral approval also increments the submitter's
referral counter on the `users` table); then `SubmissionModel.approve`.
A `None` win amount would raise `TypeError` on comparison, and a
missing user row would raise on subscripting — both are caught by the
generic except branch with the state persisted so far. -/
def SubmissionView.approve_button (db : DB) (submission_id reviewer : Int)
    (has_admin : Bool) : DB × Outcome :=
  if !has_admin then (db, Outcome.noPermission)
  else
    match findSubmission db submission_id with
    | none => (db, Outcome.notFound)
    | some submission =>
      if submission.status != "pending" then
        (db, Outcome.alreadyProcessed submission.status)
      else if submission.submission_type == "win" then
        match submission.amount with
        | none => (db, Outcome.errorCaught)
        | some amount =>
          let points : Int :=
            if 5000 ≤ amount then pointsOf "WIN_5K"
            else if 1000 ≤ amount then pointsOf "WIN_1K"
            else if 500 ≤ amount then pointsOf "WIN_500"
            else if 100 ≤ amount then pointsOf "WIN_100"
            else pointsOf "FIRST_SALE"
          finishApprove db submission_id reviewer points
      else if submission.submission_type == "referral" then
        let points : Int :=
          if submission.referral_type == some "whop" then
            pointsOf "WHOP_REFERRAL"
          else pointsOf "DISCORD_REFERRAL"
        match UserModel.get_by_id db submission.user_id with
        | none => (db, Outcome.errorCaught)
        | some user =>
          let db1 : DB := { db with
            users := db.users.map (fun (u : UserRow) =>
              if u.user_id == submission.user_id then
                { u with referral_count := user.referral_count + 1 }
              else u) }
          finishApprove db1 submission_id reviewer points
      else
        finishApprove db submission_id reviewer 0

/-- `SubmissionView.reject_button` (submissions.py lines 405-485):
permission gate; fetch the submission; conflict-check that it is still
`"pending"`; then `SubmissionModel.reject`.  No point mutation on any
path. -/
def SubmissionView.reject_button (db : DB) (submission_id reviewer : Int)
    (has_admin : Bool) : DB × Outcome :=
  if !has_admin then (db, Outcome.noPermission)
  else
    match findSubmission db submission_id with
    | none => (db, Outcome.notFound)
    | some submission =>
      if submission.status != "pending" then
        (db, Outcome.alreadyProcessed submission.status)
      else
        match SubmissionModel.reject db submission_id reviewer with
        | (db', some _) => (db', Outcome.rejected)
        | (db', none) => (db', Outcome.errorCaught)

/-! ## Further example databases for witness and counterexample
theorems -/

/-- A submission that has already been approved (terminal state). -/
def apprSubmission : SubmissionRow :=
  { id := 10, user_id := 2, submission_type := "win", status := "approved",
    description := none, proof_url := none, amount := some 1200,
    referral_type := none, points_awarded := some 30, reviewed_by := some 99 }

/-- The submitter of `apprSubmission`, already credited 60 points. -/
def apprUser : UserRow :=
  { user_id := 2, username := "bob", total_points := 60, tier := "BUILDER",
    is_scaler := false, referral_count := 0 }

/-- Database with an already-approved submission. -/
def apprDB : DB :=
  { users := [apprUser], points_history := [], submissions := [apprSubmission],
    value_posts := [], daily_activity := [], next_id := 11 }

/-- A pending win submission for $1200. -/
def pendWin : SubmissionRow :=
  { id := 20, user_id := 3, submission_type := "win", status := "pending",
    description := some "win", proof_url := none, amount := some 1200,
    referral_type := none, points_awarded := none, reviewed_by := none }

/-- The submitter of `pendWin`. -/
def pendUser : UserRow :=
  { user_id := 3, username := "carol", total_points := 10,
    tier := "OBSERVER", is_scaler := false, referral_count := 0 }

/-- Database with a pending $1200 win submission. -/
def pendDB : DB :=
  { users := [pendUser], points_history := [], submissions := [pendWin],
    value_posts := [], daily_activity := [], next_id := 21 }

/-- A pending whop referral submission. -/
def refSubmission : SubmissionRow :=
  { id := 30, user_id := 4, submission_type := "referral",
    status := "pending", description := some "Referred: dan",
    proof_url := none, amount := none, referral_type := some "whop",
    points_awarded := none, reviewed_by := none }

/-- The submitter of `refSubmission`, with 2 prior referrals. -/
def refUser : UserRow :=
  { user_id := 4, username := "erin", total_points := 20,
    tier := "OBSERVER", is_scaler := false, referral_count := 2 }

/-- Database with a pending referral submission. -/
def refDB : DB :=
  { users := [refUser], points_history := [], submissions := [refSubmission],
    value_posts := [], daily_activity := [], next_id := 31 }

/-! ## Python call binding

Several handler call sites in the cogs pass a keyword argument `bot`
to model functions whose signatures do not declare it
(`UserModel.update_points`, `DailyActivityModel.award_daily_point`,
`ValuePostModel.update_reactions`).  In Python such a call raises
`TypeError: unexpected keyword argument` at binding time, before the
function body runs.  The binding check is modelled explicitly so the
handler embeddings can take the same branch the interpreter takes. -/

/-- Declared parameter names of `UserModel.update_points`
(models.py line 44). -/
def update_points_params : List String := ["user_id", "points_change", "reason"]

/-- Declared parameter names of `DailyActivityModel.award_daily_point`
(models.py line 201). -/
def award_daily_point_params : List String := ["user_id", "activity_date"]

/-- Declared parameter names of `ValuePostModel.update_reactions`
(models.py line 282). -/
def update_reactions_params : List String := ["message_id", "fire", "gem", "hundred"]

/-- Python call binding: a call with `npos` positional arguments and
the given keyword names binds successfully iff the positional
arguments fit and every keyword names a parameter that is not already
bound positionally.  Otherwise the call raises `TypeError` before the
callee's body runs. -/
def bindsOk (params : List String) (npos : Nat) (kwargs : List String) : Bool :=
  decide (npos ≤ params.length) &&
    kwargs.all (fun k => (params.drop npos).contains k)

/-! ## DailyActivityModel (src/database/models.py) -/

/-- First `daily_activity` row for a (user, calendar day) pair. -/
def findActivity (db : DB) (user_id activity_date : Int) : Option ActivityRow :=
  db.daily_activity.find? (fun a =>
    a.user_id == user_id && a.activity_date == activity_date)

/-- `DailyActivityModel.track_activity` (models.py 148-198): increment
the day's message counter, creating the day's record at count 1 when
absent. -/
def DailyActivityModel.track_activity (db : DB) (user_id today : Int) :
    DB × ActivityRow :=
  match findActivity db user_id today with
  | some current =>
    let new_count := current.message_count + 1
    let db1 : DB := { db with
      daily_activity := db.daily_activity.map (fun (a : ActivityRow) =>
        if a.id == current.id then { a with message_count := new_count }
        else a) }
    (db1, { current with message_count := new_count })
  | none =>
    let new_activity : ActivityRow :=
      { id := db.next_id, user_id := user_id, activity_date := today,
        message_count := 1, points_awarded := 0 }
    ({ db with
        daily_activity := db.daily_activity ++ [new_activity],
        next_id := db.next_id + 1 }, new_activity)

/-- `DailyActivityModel.award_daily_point` (models.py 200-237): award
the single daily point iff the day's record exists, the one-shot
`points_awarded` flag is still 0 and `message_count >= 3`; the flag
write precedes the `update_points` call. -/
def DailyActivityModel.award_daily_point (db : DB) (user_id today : Int) :
    DB × Option Bool :=
  match findActivity db user_id today with
  | none => (db, some false)
  | some activity =>
    if activity.points_awarded == 0 && decide (3 ≤ activity.message_count) then
      let db1 : DB := { db with
        daily_activity := db.daily_activity.map (fun (a : ActivityRow) =>
          if a.id == activity.id then { a with points_awarded := 1 } else a) }
      match UserModel.update_points db1 user_id 1 "Daily activity" with
      | (db2, some _) => (db2, some true)
      | (db2, none) => (db2, none)
    else
      (db, some false)

/-! ## ValuePostModel (src/database/models.py) -/

/-- `ValuePostModel.create_or_update` (models.py 242-279): return the
tracked row for the message, or insert a fresh one dated today with
zero counts and zero points. -/
def ValuePostModel.create_or_update (db : DB)
    (message_id user_id channel_id today : Int) : DB × ValuePostRow :=
  match findPost db message_id with
  | some p => (db, p)
  | none =>
    let new_post : ValuePostRow :=
      { user_id := user_id, message_id := message_id,
        channel_id := channel_id, post_date := today, fire_count := 0,
        gem_count := 0, hundred_count := 0, is_pinned := false,
        total_points := 0 }
    ({ db with value_posts := db.value_posts ++ [new_post] }, new_post)

/-- The `points` computation of `ValuePostModel.update_reactions`
(models.py 291-299): weighted sum of the snapshot, clamped to
`MAX_POINTS_PER_POST` by `min`. -/
def reactionPoints (fire gem hundred : Int) : Int :=
  min (fire * pointsOf "FIRE_EMOJI" + gem * pointsOf "GEM_EMOJI" +
    hundred * pointsOf "HUNDRED_EMOJI") MAX_POINTS_PER_POST

/-- The row write of `ValuePostModel.update_reactions` (models.py
317-330): persist the three counters and the clamped total. -/
def reactionWrite (fire gem hundred : Int) (q : ValuePostRow) : ValuePostRow :=
  { q with
      fire_count := fire, gem_count := gem, hundred_count := hundred,
      total_points := reactionPoints fire gem hundred }

/-- `ValuePostModel.update_reactions` (models.py 281-344): recompute
the clamped score of the snapshot, persist counts and total on the
post row, and apply the old/new delta to the author via
`update_points` only when it is non-zero.  Value `some none` is the
Python `return None` for an untracked message; the outer `none` is a
raise escaping from `update_points` (author row missing) after the
post row was already written. -/
def ValuePostModel.update_reactions (db : DB)
    (message_id fire gem hundred : Int) : DB × Option (Option ValuePostRow) :=
  match findPost db message_id with
  | none => (db, some none)
  | some current_post =>
    let points_diff :=
      reactionPoints fire gem hundred - current_post.total_points
    let db1 : DB := { db with
      value_posts := db.value_posts.map (fun (p : ValuePostRow) =>
        if p.message_id == message_id then reactionWrite fire gem hundred p
        else p) }
    if points_diff ≠ 0 then
      match UserModel.update_points db1 current_post.user_id points_diff
          "Value post reactions updated" with
      | (db2, some _) =>
        (db2, some (some (reactionWrite fire gem hundred current_post)))
      | (db2, none) => (db2, none)
    else
      (db1, some (some (reactionWrite fire gem hundred current_post)))

/-- `ValuePostModel.get_user_posts_today` (models.py 346-365): count of
the author's tracked posts dated today. -/
def ValuePostModel.get_user_posts_today (db : DB) (user_id today : Int) : Nat :=
  db.value_posts.countP (fun p =>
    p.user_id == user_id && p.post_date == today)

/-! ## Leaderboard cog handlers (src/cogs/leaderboard.py) -/

/-- Observable outcome of the value-post tracking handler. -/
inductive PostOutcome where
  | blocked
  | tracked
deriving Repr, DecidableEq

/-- `Leaderboard.on_message` (leaderboard.py 25-78) for a non-bot
author posting in the value-drops channel: at or above
`MAX_VALUE_POSTS_PER_DAY` same-day posts the message is deleted and no
database write happens; otherwise get-or-create the author and create
the ValuePost record. -/
def Leaderboard.on_message (db : DB)
    (message_id author_id channel_id today : Int) (author_name : String) :
    DB × PostOutcome :=
  let posts_today := ValuePostModel.get_user_posts_today db author_id today
  if posts_today ≥ MAX_VALUE_POSTS_PER_DAY then
    (db, PostOutcome.blocked)
  else
    let db1 := (UserModel.get_or_create db author_id author_name).1
    let db2 := (ValuePostModel.create_or_update db1 message_id author_id
      channel_id today).1
    (db2, PostOutcome.tracked)

/-- `Leaderboard._handle_reaction_change` (leaderboard.py 90-139) once
the emoji/channel/bot-author guards have passed and the snapshot
counts have been read from the platform: the call
`ValuePostModel.update_reactions(..., bot=self.bot)` (line 128-130)
passes the keyword `bot`, which the callee's parameter list lacks, so
it raises `TypeError` at binding time; the handler's generic except
branch catches it and the database is untouched. -/
def Leaderboard.handle_reaction_change (db : DB)
    (message_id fire gem hundred : Int) : DB :=
  if bindsOk update_reactions_params 4 ["bot"] then
    (ValuePostModel.update_reactions db message_id fire gem hundred).1
  else
    db

/-- `Leaderboard.on_raw_message_delete` (leaderboard.py 141-176): for a
tracked post with positive points the reversal
`update_points(..., bot=self.bot)` raises `TypeError` and the whole
try-block aborts before the record delete; with no positive points the
`update_points` call is skipped and the record is deleted. -/
def Leaderboard.on_raw_message_delete (db : DB) (message_id : Int) : DB :=
  match findPost db message_id with
  | none => db
  | some post =>
    if post.total_points > 0 then
      if bindsOk update_points_params 3 ["bot"] then
        let r := UserModel.update_points db post.user_id
          (-post.total_points) "Value post deleted"
        match r with
        | (db1, some _) =>
          { db1 with value_posts := db1.value_posts.filter (fun p =>
              !(p.message_id == message_id)) }
        | (db1, none) => db1
      else
        db
    else
      { db with value_posts := db.value_posts.filter (fun p =>
          !(p.message_id == message_id)) }

/-- The `for post in response.data` loop of
`Leaderboard.on_guild_channel_pins_update` (leaderboard.py 203-233),
threading the database through the snapshot of posts and stopping at
the first escaped exception.  For each pin-status change the
`is_pinned` flag is persisted first; the following
`update_points(..., bot=self.bot)` raises `TypeError` (unexpected
keyword), the loop aborts, and the unclamped `total_points` write
below it is never reached. -/
def pinsLoop (pinned_ids : List Int) : List ValuePostRow → DB → DB
  | [], db => db
  | post :: rest, db =>
    let was_pinned := post.is_pinned
    let is_pinned := pinned_ids.contains post.message_id
    if was_pinned != is_pinned then
      let db1 : DB := { db with
        value_posts := db.value_posts.map (fun (p : ValuePostRow) =>
          if p.message_id == post.message_id then
            { p with is_pinned := is_pinned }
          else p) }
      let points_change :=
        if is_pinned then pointsOf "PINNED" else -(pointsOf "PINNED")
      if bindsOk update_points_params 3 ["bot"] then
        match UserModel.update_points db1 post.user_id points_change
            (if is_pinned then "Post pinned" else "Post unpinned") with
        | (db2, none) => db2
        | (db2, some _) =>
          let new_total := post.total_points + points_change
          let db3 : DB := { db2 with
            value_posts := db2.value_posts.map (fun (p : ValuePostRow) =>
              if p.message_id == post.message_id then
                { p with total_points := new_total }
              else p) }
          pinsLoop pinned_ids rest db3
      else
        db1
    else
      pinsLoop pinned_ids rest db

/-- `Leaderboard.on_guild_channel_pins_update` (leaderboard.py
178-236): read the channel's pinned ids and all tracked posts of the
channel, then run the reconciliation loop. -/
def Leaderboard.on_guild_channel_pins_update (db : DB) (channel_id : Int)
    (pinned_ids : List Int) : DB :=
  pinsLoop pinned_ids
    (db.value_posts.filter (fun p => p.channel_id == channel_id)) db

/-! ## Members cog handler (src/cogs/members.py) -/

/-- `Members.on_message` (members.py 28-59) for a non-bot guild message
during the challenge window: ensure the user exists, track the day's
activity, then call `award_daily_point(..., bot=self.bot)` (lines
51-53) — whose parameter list has no `bot`, so the call raises
`TypeError`, caught by the handler; the tracking write persists, the
award never happens. -/
def Members.on_message (db : DB) (author_id today : Int)
    (author_name : String) : DB :=
  let db1 := (UserModel.get_or_create db author_id author_name).1
  let db2 := (DailyActivityModel.track_activity db1 author_id today).1
  if bindsOk award_daily_point_params 1 ["bot"] then
    (DailyActivityModel.award_daily_point db2 author_id today).1
  else
    db2

/-! ## Admin cog handlers (src/cogs/admin.py) -/

/-- `Admin.add_points` (admin.py 46-90): validate `points > 0`, ensure
the user exists, then `update_points(..., bot=self.bot)` (lines 65-67)
— raises `TypeError` at binding, caught by the generic except branch,
so the state after `get_or_create` is final. -/
def Admin.add_points (db : DB) (target_id : Int) (target_name : String)
    (points : Int) (reason : String) : DB × Outcome :=
  if points ≤ 0 then (db, Outcome.invalidInput)
  else
    let db1 := (UserModel.get_or_create db target_id target_name).1
    if bindsOk update_points_params 3 ["bot"] then
      match UserModel.update_points db1 target_id points reason with
      | (db2, some _) => (db2, Outcome.success points)
      | (db2, none) => (db2, Outcome.errorCaught)
    else
      (db1, Outcome.errorCaught)

/-- `Admin.remove_points` (admin.py 100-152): validate `points > 0` and
that the user holds at least that many points, then
`update_points(..., bot=self.bot)` (lines 127-129) — `TypeError`,
caught; the state after `get_or_create` is final. -/
def Admin.remove_points (db : DB) (target_id : Int) (target_name : String)
    (points : Int) (reason : String) : DB × Outcome :=
  if points ≤ 0 then (db, Outcome.invalidInput)
  else
    let db1 := (UserModel.get_or_create db target_id target_name).1
    let user_data := (UserModel.get_or_create db target_id target_name).2
    if user_data.total_points < points then (db1, Outcome.invalidInput)
    else if bindsOk update_points_params 3 ["bot"] then
      match UserModel.update_points db1 target_id (-points) reason with
      | (db2, some _) => (db2, Outcome.success (-points))
      | (db2, none) => (db2, Outcome.errorCaught)
    else
      (db1, Outcome.errorCaught)

/-- `Admin.set_points` (admin.py 162-211): validate `points >= 0`,
compute the difference to the current total, then
`update_points(..., bot=self.bot)` (lines 185-187) — `TypeError`,
caught; the state after `get_or_create` is final. -/
def Admin.set_points (db : DB) (target_id : Int) (target_name : String)
    (points : Int) (reason : String) : DB × Outcome :=
  if points < 0 then (db, Outcome.invalidInput)
  else
    let db1 := (UserModel.get_or_create db target_id target_name).1
    let user_data := (UserModel.get_or_create db target_id target_name).2
    let points_diff := points - user_data.total_points
    if bindsOk update_points_params 3 ["bot"] then
      match UserModel.update_points db1 target_id points_diff
          ("Points set by admin: " ++ reason) with
      | (db2, some _) => (db2, Outcome.success points_diff)
      | (db2, none) => (db2, Outcome.errorCaught)
    else
      (db1, Outcome.errorCaught)

/-! ## Example value posts and activity rows for witness theorems -/

/-- A tracked value post of `exUser` with a capped score. -/
def exPost : ValuePostRow :=
  { user_id := 1, message_id := 100, channel_id := 500, post_date := 40,
    fire_count := 4, gem_count := 4, hundred_count := 2, is_pinned := false,
    total_points := 30 }

/-- Database with one user and one capped value post. -/
def vpDB : DB :=
  { users := [exUser], points_history := [], submissions := [],
    value_posts := [exPost], daily_activity := [], next_id := 2 }

/-- An activity record at the threshold with the flag still unset. -/
def exActivity : ActivityRow :=
  { id := 9, user_id := 1, activity_date := 40, message_count := 3,
    points_awarded := 0 }

/-- Database with one user and one at-threshold activity record. -/
def actDB : DB :=
  { users := [exUser], points_history := [], submissions := [],
    value_posts := [], daily_activity := [exActivity], next_id := 10 }

/-- A second same-day post by `exUser` (for the per-day limit). -/
def exPost2 : ValuePostRow :=
  { user_id := 1, message_id := 101, channel_id := 500, post_date := 40,
    fire_count := 0, gem_count := 0, hundred_count := 0, is_pinned := false,
    total_points := 0 }

/-- Database where `exUser` already has two tracked posts today. -/
def limitDB : DB :=
  { users := [exUser], points_history := [], submissions := [],
    value_posts := [exPost, exPost2], daily_activity := [], next_id := 2 }

/-! ## Observations on the value-post table -/

/-- Invariant of claim C3: every stored value post's `total_points` is
at most the configured per-post maximum. -/
def postsCapped (db : DB) : Prop :=
  ∀ p ∈ db.value_posts, p.total_points ≤ MAX_POINTS_PER_POST

/-- The points-relevant projection of the value-post table: message
id, the three reaction counters and the stored total, per row. -/
def postCounts (db : DB) : List (Int × Int × Int × Int × Int) :=
  db.value_posts.map (fun p =>
    (p.message_id, p.fire_count, p.gem_count, p.hundred_count,
      p.total_points))

/-! ## Generic list lemmas for row updates -/

/-- Mapping a function that does not change which rows match a filter
commutes with `find?` for that filter. -/
theorem find?_map_pres {α : Type} (l : List α) (q : α → Bool) (f : α → α)
    (h : ∀ x, q (f x) = q x) :
    (l.map f).find? q = (l.find? q).map f := by
  induction l with
  | nil => simp
  | cons a l ih =>
    by_cases ha : q a
    · simp [List.find?, h, ha]
    · simp [List.find?, h, ha, ih]

/-- A list is unchanged by a map that fixes each of its elements. -/
theorem map_eq_self_of_fixed {α : Type} (l : List α) (f : α → α)
    (h : ∀ x ∈ l, f x = x) : l.map f = l := by
  induction l with
  | nil => rfl
  | cons a l ih =>
    simp only [List.map_cons]
    rw [h a (by simp), ih (fun x hx => h x (by simp [hx]))]

/-- Keyed row update: when `find?` locates row `a` and the update `g`
does not change which rows match, `find?` after the update locates
`g a`. -/
theorem find?_update_found {α : Type} (l : List α) (q : α → Bool) (g : α → α)
    (a : α) (ha : l.find? q = some a) (hg : ∀ x, q (g x) = q x) :
    (l.map (fun x => if q x then g x else x)).find? q = some (g a) := by
  rw [find?_map_pres]
  · rw [ha]
    simp [List.find?_some ha]
  · intro x
    by_cases hx : q x = true <;> simp [hx, hg]

/-! ## Tier lookup facts -/

/-- The code's tier lookup and the spec's ordered range lookup are the
same function. -/
theorem calculate_tier_eq_specTier :
    ∀ p : Int, UserModel.calculate_tier p = specTier p := fun _ => rfl

/-- Any total of at least 300 lands in the `ELITE` bucket. -/
theorem calculate_tier_elite (p : Int) (hp : 300 ≤ p) :
    UserModel.calculate_tier p = "ELITE" := by
  have e1 : tierMatches p ⟨0, some 49, "Q1 — Challenger", "🟤"⟩ = false := by
    simp only [tierMatches, Bool.and_eq_false_iff, decide_eq_false_iff_not]
    right; omega
  have e2 : tierMatches p ⟨50, some 149, "Q1 — Builder", "🟢"⟩ = false := by
    simp only [tierMatches, Bool.and_eq_false_iff, decide_eq_false_iff_not]
    right; omega
  have e3 : tierMatches p ⟨150, some 299, "Q1 — Operator", "🔵"⟩ = false := by
    simp only [tierMatches, Bool.and_eq_false_iff, decide_eq_false_iff_not]
    right; omega
  have e4 : tierMatches p ⟨300, none, "Q1 — Elite", "🟣"⟩ = true := by
    simp only [tierMatches, Bool.and_eq_true, decide_eq_true_eq]
    exact ⟨hp, trivial⟩
  simp [UserModel.calculate_tier, TIERS, List.find?, e1, e2, e3, e4]

/-! ## C1 -/

/-- C1: for every user and every point delta applied via
`UserModel.update_points`, the tier persisted together with the new
total equals the ordered range lookup `specTier` over the static
`TIERS` table — the first bucket whose `[min,max]` contains the new
total, boundary-inclusive at both ends, defaulting to the lowest tier
`"OBSERVER"` when no bucket matches. -/
theorem C1_update_points_tier_lookup (db : DB) (uid delta : Int)
    (reason : String) (u : UserRow)
    (hu : UserModel.get_by_id db uid = some u) :
    ∃ db' row, UserModel.update_points db uid delta reason = (db', some row) ∧
      row.total_points = u.total_points + delta ∧
      row.tier = specTier (u.total_points + delta) ∧
      ∀ v ∈ db'.users, v.user_id = uid →
        v.total_points = u.total_points + delta ∧
        v.tier = specTier (u.total_points + delta) := by
  simp only [UserModel.update_points, hu]
  refine ⟨_, _, rfl, rfl, rfl, ?_⟩
  intro v hv hvid
  simp only [List.mem_map] at hv
  obtain ⟨x, hx, rfl⟩ := hv
  by_cases hxid : (x.user_id == uid) = true
  · rw [if_pos hxid]
    exact ⟨rfl, rfl⟩
  · rw [if_neg hxid] at hvid ⊢
    exact absurd (by simpa using hvid) (by simpa using hxid)

/-- C1 witness: the theorem applied to a concrete database — a user at
45 points receiving +10 (the spec's own §8 scenario). -/
theorem C1_witness :
    UserModel.get_by_id exDB 1 = some exUser ∧
    ∃ db' row, UserModel.update_points exDB 1 10 "test" = (db', some row) ∧
      row.total_points = exUser.total_points + 10 ∧
      row.tier = specTier (exUser.total_points + 10) ∧
      ∀ v ∈ db'.users, v.user_id = 1 →
        v.total_points = exUser.total_points + 10 ∧
        v.tier = specTier (exUser.total_points + 10) :=
  ⟨by decide, C1_update_points_tier_lookup exDB 1 10 "test" exUser (by decide)⟩

/-! ## C4 -/

/-- C4 counterexample: applying `update_points(u, +5000)` to a user
whose current total is −5000 (negative totals are reachable, since no
floor is enforced) yields total 0 and tier `"OBSERVER"`, not the top
tier `"ELITE"`; so "always yields the top tier regardless of current
total" fails as stated. -/
theorem C4_counterexample :
    ∃ db' row, UserModel.update_points negDB 7 5000 "refund" = (db', some row) ∧
      row.total_points = 0 ∧ row.tier = "OBSERVER" ∧ row.tier ≠ "ELITE" := by
  refine ⟨_, _, rfl, by decide, by decide, by decide⟩

/-- C4 amended: `update_points` enforces no floor — every delta,
however negative, is accepted and the persisted total is exactly
`old + delta` — and `update_points(u, +5000)` yields the top tier
`"ELITE"` whenever the current total is at least −4700 (so that the
new total reaches the ELITE bucket's lower bound 300); for lower
current totals the lookup lands in a lower bucket. -/
theorem C4_amended_no_floor_and_elite (db : DB) (uid : Int) (reason : String)
    (u : UserRow) (hu : UserModel.get_by_id db uid = some u) :
    (∀ delta : Int, ∃ db' row,
        UserModel.update_points db uid delta reason = (db', some row) ∧
        row.total_points = u.total_points + delta) ∧
    (-4700 ≤ u.total_points →
      ∃ db' row, UserModel.update_points db uid 5000 reason = (db', some row) ∧
        row.tier = "ELITE") := by
  constructor
  · intro delta
    simp only [UserModel.update_points, hu]
    exact ⟨_, _, rfl, rfl⟩
  · intro h
    simp only [UserModel.update_points, hu]
    exact ⟨_, _, rfl, calculate_tier_elite _ (by omega)⟩

/-- C4 witness: the amended theorem applied to the concrete example
database. -/
theorem C4_witness :
    (∀ delta : Int, ∃ db' row,
        UserModel.update_points exDB 1 delta "w" = (db', some row) ∧
        row.total_points = exUser.total_points + delta) ∧
    (-4700 ≤ exUser.total_points →
      ∃ db' row, UserModel.update_points exDB 1 5000 "w" = (db', some row) ∧
        row.tier = "ELITE") :=
  C4_amended_no_floor_and_elite exDB 1 "w" exUser (by decide)

/-! ## Shape of a successful model-level approval -/

/-- When the submission and the submitter both exist,
`SubmissionModel.approve` succeeds — regardless of the submission's
current status — marking the row approved and adding the points to the
submitter. -/
theorem approve_success_shape (db : DB) (sid reviewer pts : Int)
    (s : SubmissionRow) (u : UserRow)
    (hs : findSubmission db sid = some s)
    (hu : UserModel.get_by_id db s.user_id = some u) :
    SubmissionModel.approve db sid reviewer pts =
      ({ db with
          submissions := db.submissions.map (fun x =>
            if x.id == sid then
              { x with
                  status := "approved", points_awarded := some pts,
                  reviewed_by := some reviewer }
            else x),
          users := db.users.map (fun v =>
            if v.user_id == s.user_id then
              { v with
                  total_points := u.total_points + pts,
                  tier := UserModel.calculate_tier (u.total_points + pts) }
            else v),
          points_history := db.points_history ++
            [⟨s.user_id, pts, s.submission_type ++ " approved"⟩] },
        some { s with
                status := "approved", points_awarded := some pts,
                reviewed_by := some reviewer }) := by
  have hu1 : UserModel.get_by_id
      { db with
        submissions := db.submissions.map (fun (x : SubmissionRow) =>
          if x.id == sid then
            { x with
                status := "approved", points_awarded := some pts,
                reviewed_by := some reviewer }
          else x) } s.user_id = some u := hu
  simp only [SubmissionModel.approve, hs, UserModel.update_points, hu1]

/-! ## C2 -/

/-- C2 counterexample: the claim fails for the model-level operation.
`SubmissionModel.approve` called on a submission that is already
`"approved"` (id 10, previously awarded 30 points, submitter at 60
total) succeeds again and awards the points a second time: the
submitter's total changes from 60 to 90 instead of staying unchanged,
and no conflict is reported. -/
theorem C2_counterexample :
    ∃ db' row, SubmissionModel.approve apprDB 10 99 30 = (db', some row) ∧
      apprSubmission.status = "approved" ∧
      userPoints apprDB 2 = some (60, "BUILDER") ∧
      userPoints db' 2 = some (90, "BUILDER") := by
  refine ⟨_, _, rfl, by decide, by decide, by decide⟩

/-- C2 amended: the repeated-call conflict guard holds at the button
handlers only: for a submission whose status is no longer `"pending"`,
both `SubmissionView.approve_button` and `SubmissionView.reject_button`
report the conflict and leave the whole database (hence the status,
`points_awarded` and the submitter's total) unchanged; the model-level
`SubmissionModel.approve` and `SubmissionModel.reject` carry no status
check and will re-process when called directly. -/
theorem C2_amended_handler_conflict (db : DB) (sid reviewer : Int)
    (s : SubmissionRow) (hs : findSubmission db sid = some s)
    (hstatus : s.status ≠ "pending") :
    SubmissionView.approve_button db sid reviewer true =
      (db, Outcome.alreadyProcessed s.status) ∧
    SubmissionView.reject_button db sid reviewer true =
      (db, Outcome.alreadyProcessed s.status) := by
  have hb : (s.status != "pending") = true := by
    simpa [bne_iff_ne] using hstatus
  constructor
  · simp [SubmissionView.approve_button, hs, hb]
  · simp [SubmissionView.reject_button, hs, hb]

/-- C2 witness: the amended theorem applied to the concrete database
with an already-approved submission. -/
theorem C2_witness :
    SubmissionView.approve_button apprDB 10 99 true =
      (apprDB, Outcome.alreadyProcessed apprSubmission.status) ∧
    SubmissionView.reject_button apprDB 10 99 true =
      (apprDB, Outcome.alreadyProcessed apprSubmission.status) :=
  C2_amended_handler_conflict apprDB 10 99 apprSubmission (by decide) (by decide)

/-! ## C9 -/

/-- C9: approving a pending win submission whose amount lies in
`[1000, 5000)` — e.g. $1200 — awards exactly the `WIN_1K` bracket
value (30 points, not the $500 bracket's 15 nor the $5000 bracket's
75): the handler reports the award, persists it on the submission row
and adds it to the submitter's total. -/
theorem C9_win_bracket_1k (db : DB) (sid reviewer : Int) (s : SubmissionRow)
    (u : UserRow) (a : ℚ)
    (hs : findSubmission db sid = some s)
    (hpend : s.status = "pending")
    (htype : s.submission_type = "win")
    (hamt : s.amount = some a)
    (ha1 : 1000 ≤ a) (ha2 : a < 5000)
    (hu : UserModel.get_by_id db s.user_id = some u) :
    (SubmissionView.approve_button db sid reviewer true).2 =
      Outcome.success (pointsOf "WIN_1K") ∧
    pointsOf "WIN_1K" = 30 ∧ pointsOf "WIN_500" = 15 ∧
    pointsOf "WIN_5K" = 75 ∧
    findSubmission (SubmissionView.approve_button db sid reviewer true).1 sid =
      some { s with
              status := "approved",
              points_awarded := some (pointsOf "WIN_1K"),
              reviewed_by := some reviewer } ∧
    userPoints (SubmissionView.approve_button db sid reviewer true).1
        s.user_id =
      some (u.total_points + pointsOf "WIN_1K",
        UserModel.calculate_tier (u.total_points + pointsOf "WIN_1K")) := by
  have hb : (s.status != "pending") = false := by simp [hpend]
  have hw : (s.submission_type == "win") = true := by simp [htype]
  have hnot5000 : ¬ (5000 : ℚ) ≤ a := not_le.mpr ha2
  have happ := approve_success_shape db sid reviewer (pointsOf "WIN_1K") s u hs hu
  have hbtn : SubmissionView.approve_button db sid reviewer true =
      ((SubmissionModel.approve db sid reviewer (pointsOf "WIN_1K")).1,
        Outcome.success (pointsOf "WIN_1K")) := by
    simp only [SubmissionView.approve_button, hs, hb, hw, hamt, Bool.not_true,
      Bool.false_eq_true, if_false, if_true, if_neg hnot5000, if_pos ha1,
      finishApprove, happ]
  rw [hbtn, happ]
  refine ⟨rfl, by decide, by decide, by decide, ?_, ?_⟩
  · exact find?_update_found db.submissions (fun x => x.id == sid)
      (fun x => { x with
                   status := "approved",
                   points_awarded := some (pointsOf "WIN_1K"),
                   reviewed_by := some reviewer }) s hs (fun _ => rfl)
  · simp only [userPoints, UserModel.get_by_id]
    rw [find?_update_found db.users (fun v => v.user_id == s.user_id)
      (fun v => { v with
                   total_points := u.total_points + pointsOf "WIN_1K",
                   tier := UserModel.calculate_tier
                     (u.total_points + pointsOf "WIN_1K") }) u hu (fun _ => rfl)]
    rfl

/-- C9 witness: the theorem applied to the concrete pending $1200 win
submission. -/
theorem C9_witness :
    (SubmissionView.approve_button pendDB 20 99 true).2 =
      Outcome.success (pointsOf "WIN_1K") ∧
    pointsOf "WIN_1K" = 30 ∧ pointsOf "WIN_500" = 15 ∧
    pointsOf "WIN_5K" = 75 ∧
    findSubmission (SubmissionView.approve_button pendDB 20 99 true).1 20 =
      some { pendWin with
              status := "approved",
              points_awarded := some (pointsOf "WIN_1K"),
              reviewed_by := some 99 } ∧
    userPoints (SubmissionView.approve_button pendDB 20 99 true).1
        pendWin.user_id =
      some (pendUser.total_points + pointsOf "WIN_1K",
        UserModel.calculate_tier (pendUser.total_points + pointsOf "WIN_1K")) :=
  C9_win_bracket_1k pendDB 20 99 pendWin pendUser 1200 (by decide) (by decide)
    (by decide) (by decide) (by norm_num) (by norm_num) (by decide)

/-! ## C10 -/

/-- A map over the user table that changes neither user ids nor
referral counters leaves every `userReferrals` observation unchanged. -/
theorem userReferrals_users_map (db db' : DB) (f : UserRow → UserRow)
    (husers : db'.users = db.users.map f)
    (hid : ∀ v, (f v).user_id = v.user_id)
    (href : ∀ v, (f v).referral_count = v.referral_count) (uid : Int) :
    userReferrals db' uid = userReferrals db uid := by
  simp only [userReferrals, UserModel.get_by_id, husers]
  rw [find?_map_pres]
  · cases db.users.find? (fun u => u.user_id == uid) <;> simp [href]
  · intro x
    simp [hid]

/-- C10: approving a pending referral submission increments the
submitter's referral counter by exactly 1 and awards the
referral-type-specific points; rejecting it touches no user row at
all; and approving a win submission leaves every referral counter
unchanged. -/
theorem C10_referral_counter (db : DB) (sid reviewer : Int)
    (s : SubmissionRow) (u : UserRow)
    (hs : findSubmission db sid = some s)
    (hpend : s.status = "pending")
    (hu : UserModel.get_by_id db s.user_id = some u) :
    (s.submission_type = "referral" →
      (SubmissionView.approve_button db sid reviewer true).2 =
        Outcome.success
          (if s.referral_type == some "whop" then pointsOf "WHOP_REFERRAL"
           else pointsOf "DISCORD_REFERRAL") ∧
      userReferrals (SubmissionView.approve_button db sid reviewer true).1
          s.user_id = some (u.referral_count + 1) ∧
      userPoints (SubmissionView.approve_button db sid reviewer true).1
          s.user_id =
        some (u.total_points +
            (if s.referral_type == some "whop" then pointsOf "WHOP_REFERRAL"
             else pointsOf "DISCORD_REFERRAL"),
          UserModel.calculate_tier (u.total_points +
            (if s.referral_type == some "whop" then pointsOf "WHOP_REFERRAL"
             else pointsOf "DISCORD_REFERRAL")))) ∧
    ((SubmissionView.reject_button db sid reviewer true).1.users =
      db.users) ∧
    (∀ a : ℚ, s.submission_type = "win" → s.amount = some a →
      ∀ uid,
        userReferrals (SubmissionView.approve_button db sid reviewer true).1
          uid = userReferrals db uid) := by
  have hb : (s.status != "pending") = false := by simp [hpend]
  refine ⟨?_, ?_, ?_⟩
  · intro href
    have hw : (s.submission_type == "win") = false := by simp [href]
    have hr : (s.submission_type == "referral") = true := by simp [href]
    set pts : Int :=
      (if s.referral_type == some "whop" then pointsOf "WHOP_REFERRAL"
       else pointsOf "DISCORD_REFERRAL") with hpts
    set g1 : UserRow → UserRow :=
      (fun v => { v with referral_count := u.referral_count + 1 }) with hg1
    set db1 : DB := { db with
      users := db.users.map (fun v =>
        if v.user_id == s.user_id then g1 v else v) } with hdb1
    have hs1 : findSubmission db1 sid = some s := hs
    have hfind1 : (db.users.map (fun v =>
        if v.user_id == s.user_id then g1 v else v)).find?
          (fun v => v.user_id == s.user_id) = some (g1 u) :=
      find?_update_found db.users (fun v => v.user_id == s.user_id)
        g1 u hu (fun _ => rfl)
    have hu1 : UserModel.get_by_id db1 s.user_id = some (g1 u) := hfind1
    have happ := approve_success_shape db1 sid reviewer pts s (g1 u) hs1 hu1
    have hbtn : SubmissionView.approve_button db sid reviewer true =
        ((SubmissionModel.approve db1 sid reviewer pts).1,
          Outcome.success pts) := by
      simp only [SubmissionView.approve_button, hs, hb, hw, hr, hu,
        Bool.not_true, Bool.false_eq_true, if_false, if_true,
        finishApprove, ← hpts, ← hg1, ← hdb1, happ]
    rw [hbtn, happ]
    refine ⟨rfl, ?_, ?_⟩
    · simp only [userReferrals, UserModel.get_by_id, hdb1]
      rw [find?_update_found _ (fun v => v.user_id == s.user_id)
        (fun v => { v with
                     total_points := (g1 u).total_points + pts,
                     tier := UserModel.calculate_tier
                       ((g1 u).total_points + pts) }) (g1 u) hfind1
        (fun _ => rfl)]
      rfl
    · simp only [userPoints, UserModel.get_by_id, hdb1]
      rw [find?_update_found _ (fun v => v.user_id == s.user_id)
        (fun v => { v with
                     total_points := (g1 u).total_points + pts,
                     tier := UserModel.calculate_tier
                       ((g1 u).total_points + pts) }) (g1 u) hfind1
        (fun _ => rfl)]
      rfl
  · simp only [SubmissionView.reject_button, hs, hb, Bool.not_true,
      Bool.false_eq_true, if_false, SubmissionModel.reject]
  · intro a htype hamt uid
    have hw : (s.submission_type == "win") = true := by simp [htype]
    set pts : Int :=
      (if 5000 ≤ a then pointsOf "WIN_5K"
       else if 1000 ≤ a then pointsOf "WIN_1K"
       else if 500 ≤ a then pointsOf "WIN_500"
       else if 100 ≤ a then pointsOf "WIN_100"
       else pointsOf "FIRST_SALE") with hpts
    have happ := approve_success_shape db sid reviewer pts s u hs hu
    have hbtn : SubmissionView.approve_button db sid reviewer true =
        ((SubmissionModel.approve db sid reviewer pts).1,
          Outcome.success pts) := by
      simp only [SubmissionView.approve_button, hs, hb, hw, hamt,
        Bool.not_true, Bool.false_eq_true, if_false, if_true,
        finishApprove, ← hpts, happ]
    rw [hbtn, happ]
    exact userReferrals_users_map db _
      (fun v => if v.user_id == s.user_id then
        { v with
            total_points := u.total_points + pts,
            tier := UserModel.calculate_tier (u.total_points + pts) }
        else v) rfl
      (fun v => by by_cases h : (v.user_id == s.user_id) = true <;> simp [h])
      (fun v => by by_cases h : (v.user_id == s.user_id) = true <;> simp [h])
      uid

/-- C10 witness: the theorem applied to the concrete pending whop
referral submission of a user with 2 prior referrals. -/
theorem C10_witness :
    (refSubmission.submission_type = "referral" →
      (SubmissionView.approve_button refDB 30 99 true).2 =
        Outcome.success
          (if refSubmission.referral_type == some "whop" then
            pointsOf "WHOP_REFERRAL"
           else pointsOf "DISCORD_REFERRAL") ∧
      userReferrals (SubmissionView.approve_button refDB 30 99 true).1
          refSubmission.user_id = some (refUser.referral_count + 1) ∧
      userPoints (SubmissionView.approve_button refDB 30 99 true).1
          refSubmission.user_id =
        some (refUser.total_points +
            (if refSubmission.referral_type == some "whop" then
              pointsOf "WHOP_REFERRAL"
             else pointsOf "DISCORD_REFERRAL"),
          UserModel.calculate_tier (refUser.total_points +
            (if refSubmission.referral_type == some "whop" then
              pointsOf "WHOP_REFERRAL"
             else pointsOf "DISCORD_REFERRAL")))) ∧
    ((SubmissionView.reject_button refDB 30 99 true).1.users =
      refDB.users) ∧
    (∀ a : ℚ, refSubmission.submission_type = "win" →
      refSubmission.amount = some a →
      ∀ uid,
        userReferrals (SubmissionView.approve_button refDB 30 99 true).1
          uid = userReferrals refDB uid) :=
  C10_referral_counter refDB 30 99 refSubmission refUser (by decide)
    (by decide) (by decide)

/-! ## Table-preservation lemmas -/

/-- Pointwise-equal functions map lists equally. -/
theorem map_congr_all {α β : Type} (l : List α) (f g : α → β)
    (h : ∀ x, f x = g x) : l.map f = l.map g := by
  induction l with
  | nil => rfl
  | cons a l ih => simp [h, ih]

/-- `find?` skips a prefix in which nothing matches. -/
theorem find?_append_none {α : Type} (l1 l2 : List α) (p : α → Bool)
    (h : l1.find? p = none) : (l1 ++ l2).find? p = l2.find? p := by
  induction l1 with
  | nil => rfl
  | cons a l ih =>
    cases hpa : p a with
    | true =>
      rw [List.find?_cons_of_pos _ hpa] at h
      exact absurd h (by simp)
    | false =>
      rw [List.find?_cons_of_neg _ (by simp [hpa])] at h
      rw [List.cons_append, List.find?_cons_of_neg _ (by simp [hpa])]
      exact ih h

/-- `update_points` never touches the value-post table. -/
theorem update_points_value_posts (db : DB) (uid delta : Int)
    (reason : String) :
    (UserModel.update_points db uid delta reason).1.value_posts =
      db.value_posts := by
  simp only [UserModel.update_points]
  cases UserModel.get_by_id db uid <;> rfl

/-- `get_or_create` never touches the value-post table. -/
theorem get_or_create_value_posts (db : DB) (uid : Int) (name : String) :
    (UserModel.get_or_create db uid name).1.value_posts = db.value_posts := by
  simp only [UserModel.get_or_create]
  cases db.users.find? (fun u => u.user_id == uid) <;> rfl

/-- Whatever branch `update_reactions` takes, the resulting value-post
table is either untouched (untracked message) or the keyed
`reactionWrite` image of the original table. -/
theorem update_reactions_posts_shape (db : DB)
    (mid fire gem hundred : Int) :
    (ValuePostModel.update_reactions db mid fire gem hundred).1.value_posts =
      db.value_posts ∨
    (ValuePostModel.update_reactions db mid fire gem hundred).1.value_posts =
      db.value_posts.map (fun p =>
        if p.message_id == mid then reactionWrite fire gem hundred p
        else p) := by
  cases hfp : findPost db mid with
  | none =>
    left
    simp only [ValuePostModel.update_reactions, hfp]
  | some p =>
    right
    simp only [ValuePostModel.update_reactions, hfp]
    split
    · split
      · rename_i db2 val heq
        have h := update_points_value_posts { db with
          value_posts := db.value_posts.map (fun q =>
            if q.message_id == mid then reactionWrite fire gem hundred q
            else q) } p.user_id
          (reactionPoints fire gem hundred - p.total_points)
          "Value post reactions updated"
        rw [heq] at h
        exact h
      · rename_i db2 heq
        have h := update_points_value_posts { db with
          value_posts := db.value_posts.map (fun q =>
            if q.message_id == mid then reactionWrite fire gem hundred q
            else q) } p.user_id
          (reactionPoints fire gem hundred - p.total_points)
          "Value post reactions updated"
        rw [heq] at h
        exact h
    · rfl

/-- When the message is tracked, the post table after
`update_reactions` is exactly the keyed `reactionWrite` image of the
original table (whether or not the delta write to the author
succeeded). -/
theorem update_reactions_posts_found (db : DB) (mid fire gem hundred : Int)
    (p : ValuePostRow) (hp : findPost db mid = some p) :
    (ValuePostModel.update_reactions db mid fire gem hundred).1.value_posts =
      db.value_posts.map (fun q =>
        if q.message_id == mid then reactionWrite fire gem hundred q
        else q) := by
  simp only [ValuePostModel.update_reactions, hp]
  split
  · split
    · rename_i db2 val heq
      have h := update_points_value_posts { db with
        value_posts := db.value_posts.map (fun q =>
          if q.message_id == mid then reactionWrite fire gem hundred q
          else q) } p.user_id
        (reactionPoints fire gem hundred - p.total_points)
        "Value post reactions updated"
      rw [heq] at h
      exact h
    · rename_i db2 heq
      have h := update_points_value_posts { db with
        value_posts := db.value_posts.map (fun q =>
          if q.message_id == mid then reactionWrite fire gem hundred q
          else q) } p.user_id
        (reactionPoints fire gem hundred - p.total_points)
        "Value post reactions updated"
      rw [heq] at h
      exact h
  · rfl

/-- Two databases with the same `postCounts` projection satisfy the cap
invariant together. -/
theorem postsCapped_of_postCounts (db db' : DB)
    (h : postCounts db' = postCounts db) (hinv : postsCapped db) :
    postsCapped db' := by
  intro p hp
  have hmem : (p.message_id, p.fire_count, p.gem_count, p.hundred_count,
      p.total_points) ∈ postCounts db' := List.mem_map_of_mem _ hp
  rw [h] at hmem
  simp only [postCounts, List.mem_map] at hmem
  obtain ⟨q, hq, heq⟩ := hmem
  have hqt : p.total_points = q.total_points := by
    simpa using congrArg (fun t => t.2.2.2.2) heq.symm
  rw [hqt]
  exact hinv q hq

/-- The pin-reconciliation loop preserves the user table, the history
table and the points-relevant projection of the post table: on every
changed post it persists the `is_pinned` flag and then aborts on the
`TypeError` of the `bot` keyword before any point write. -/
theorem pinsLoop_preserves (pinned_ids : List Int)
    (posts : List ValuePostRow) :
    ∀ db : DB, (pinsLoop pinned_ids posts db).users = db.users ∧
      (pinsLoop pinned_ids posts db).points_history = db.points_history ∧
      postCounts (pinsLoop pinned_ids posts db) = postCounts db := by
  induction posts with
  | nil => intro db; exact ⟨rfl, rfl, rfl⟩
  | cons post rest ih =>
    intro db
    simp only [pinsLoop]
    by_cases hpin :
        (post.is_pinned != pinned_ids.contains post.message_id) = true
    · rw [if_pos hpin,
        show bindsOk update_points_params 3 ["bot"] = false from rfl]
      refine ⟨by simp, by simp, ?_⟩
      simp only [Bool.false_eq_true, if_false, postCounts, List.map_map]
      exact map_congr_all _ _ _ (fun x => by
        by_cases hx : (x.message_id == post.message_id) = true <;>
          simp [Function.comp, hx])
    · rw [if_neg hpin]
      exact ih db

/-! ## C3 -/

/-- C3: every operation that writes a value post\'s `total_points`
keeps it at or below `MAX_POINTS_PER_POST`.  The reaction recompute
clamps with `min`; post creation writes 0; the reaction handler and
the positive-points branch of the delete handler abort on the
`TypeError` of the `bot` keyword with the database untouched; the pin
handler persists only the `is_pinned` flag before its own `TypeError`,
so the unclamped bonus write below its `update_points` call is never
reached. -/
theorem C3_posts_capped (db : DB) (hinv : postsCapped db) :
    (∀ mid uid cid today,
      postsCapped (ValuePostModel.create_or_update db mid uid cid today).1) ∧
    (∀ mid fire gem hundred,
      postsCapped (ValuePostModel.update_reactions db mid fire gem hundred).1) ∧
    (∀ mid fire gem hundred,
      postsCapped (Leaderboard.handle_reaction_change db mid fire gem hundred)) ∧
    (∀ mid, postsCapped (Leaderboard.on_raw_message_delete db mid)) ∧
    (∀ cid pinned_ids,
      postsCapped (Leaderboard.on_guild_channel_pins_update db cid pinned_ids)) ∧
    (∀ mid uid cid today name,
      postsCapped (Leaderboard.on_message db mid uid cid today name).1) := by
  have hmapped : ∀ (mid fire gem hundred : Int) (l : List ValuePostRow),
      (∀ q ∈ l, q.total_points ≤ MAX_POINTS_PER_POST) →
      ∀ q ∈ l.map (fun p =>
        if p.message_id == mid then reactionWrite fire gem hundred p else p),
        q.total_points ≤ MAX_POINTS_PER_POST := by
    intro mid fire gem hundred l hl q hq
    simp only [List.mem_map] at hq
    obtain ⟨x, hx, rfl⟩ := hq
    by_cases hxm : (x.message_id == mid) = true
    · rw [if_pos hxm]
      exact min_le_right _ _
    · rw [if_neg hxm]
      exact hl x hx
  have hcreate : ∀ mid uid cid today,
      postsCapped (ValuePostModel.create_or_update db mid uid cid today).1 := by
    intro mid uid cid today
    cases hfp : findPost db mid with
    | some p =>
      simp only [ValuePostModel.create_or_update, hfp]
      exact hinv
    | none =>
      simp only [ValuePostModel.create_or_update, hfp]
      intro p hp
      simp only [List.mem_append, List.mem_singleton] at hp
      rcases hp with hp | hp
      · exact hinv p hp
      · rw [hp]
        exact (by decide : (0 : Int) ≤ MAX_POINTS_PER_POST)
  have hreact : ∀ mid fire gem hundred,
      postsCapped (ValuePostModel.update_reactions db mid fire gem hundred).1 := by
    intro mid fire gem hundred
    intro q hq
    rcases update_reactions_posts_shape db mid fire gem hundred with h | h
    · rw [h] at hq
      exact hinv q hq
    · rw [h] at hq
      exact hmapped mid fire gem hundred db.value_posts hinv q hq
  refine ⟨hcreate, hreact, ?_, ?_, ?_, ?_⟩
  · intro mid fire gem hundred
    exact hinv
  · intro mid
    cases hfp : findPost db mid with
    | none =>
      simp only [Leaderboard.on_raw_message_delete, hfp]
      exact hinv
    | some post =>
      simp only [Leaderboard.on_raw_message_delete, hfp]
      by_cases hpos : post.total_points > 0
      · rw [if_pos hpos,
          show bindsOk update_points_params 3 ["bot"] = false from rfl]
        simp only [Bool.false_eq_true, if_false]
        exact hinv
      · rw [if_neg hpos]
        intro q hq
        exact hinv q (List.mem_of_mem_filter hq)
  · intro cid pinned_ids
    exact postsCapped_of_postCounts db _
      (pinsLoop_preserves pinned_ids _ db).2.2 hinv
  · intro mid uid cid today name
    simp only [Leaderboard.on_message]
    by_cases hlim : ValuePostModel.get_user_posts_today db uid today ≥
        MAX_VALUE_POSTS_PER_DAY
    · rw [if_pos hlim]
      exact hinv
    · rw [if_neg hlim]
      have hgoc := get_or_create_value_posts db uid name
      cases hfp : findPost (UserModel.get_or_create db uid name).1 mid with
      | some p =>
        simp only [ValuePostModel.create_or_update, hfp]
        intro q hq
        rw [hgoc] at hq
        exact hinv q hq
      | none =>
        simp only [ValuePostModel.create_or_update, hfp]
        intro q hq
        simp only [List.mem_append, List.mem_singleton] at hq
        rw [hgoc] at hq
        rcases hq with hq | hq
        · exact hinv q hq
        · rw [hq]
          exact (by decide : (0 : Int) ≤ MAX_POINTS_PER_POST)

/-- C3 witness: the invariant theorem applied to the concrete database
with a capped post. -/
theorem C3_witness :
    (∀ mid uid cid today,
      postsCapped (ValuePostModel.create_or_update vpDB mid uid cid today).1) ∧
    (∀ mid fire gem hundred,
      postsCapped (ValuePostModel.update_reactions vpDB mid fire gem hundred).1) ∧
    (∀ mid fire gem hundred,
      postsCapped (Leaderboard.handle_reaction_change vpDB mid fire gem hundred)) ∧
    (∀ mid, postsCapped (Leaderboard.on_raw_message_delete vpDB mid)) ∧
    (∀ cid pinned_ids,
      postsCapped (Leaderboard.on_guild_channel_pins_update vpDB cid pinned_ids)) ∧
    (∀ mid uid cid today name,
      postsCapped (Leaderboard.on_message vpDB mid uid cid today name).1) :=
  C3_posts_capped vpDB (by
    intro p hp
    simp only [vpDB, List.mem_singleton] at hp
    rw [hp]
    decide)

/-! ## C6 -/

/-- Running `update_reactions` on a database whose post table is
already the keyed `reactionWrite` image of some table in which the
message is tracked is a no-op: the stored total already equals the
clamped score, so the delta is zero, no `update_points` call is made,
and the row write re-writes identical values. -/
theorem update_reactions_second_noop (db0 dbx : DB)
    (mid fire gem hundred : Int) (p : ValuePostRow)
    (hp : findPost db0 mid = some p)
    (hvp : dbx.value_posts = db0.value_posts.map (fun q =>
      if q.message_id == mid then reactionWrite fire gem hundred q
      else q)) :
    ValuePostModel.update_reactions dbx mid fire gem hundred =
      (dbx, some (some (reactionWrite fire gem hundred p))) := by
  have hfind : findPost dbx mid =
      some (reactionWrite fire gem hundred p) := by
    rw [findPost, hvp]
    exact find?_update_found db0.value_posts (fun q => q.message_id == mid)
      (reactionWrite fire gem hundred) p hp (fun _ => rfl)
  have hmap : dbx.value_posts.map (fun q =>
      if q.message_id == mid then reactionWrite fire gem hundred q
      else q) = dbx.value_posts := by
    rw [hvp, List.map_map]
    exact map_congr_all _ _ _ (fun x => by
      by_cases hx : (x.message_id == mid) = true <;>
        simp [Function.comp, reactionWrite, hx])
  simp only [ValuePostModel.update_reactions, hfind]
  rw [if_neg (by simp [reactionWrite]), hmap]
  exact rfl

/-- C6: the reaction recompute is idempotent: after one
`update_reactions` call for a tracked message, a second call with the
same `(fire, gem, hundred)` snapshot returns the database completely
unchanged — the delta is zero, so no `update_points` call is made and
the author's `total_points` (and the history table) stay as they
were. -/
theorem C6_recompute_idempotent (db : DB) (mid fire gem hundred : Int)
    (p : ValuePostRow) (hp : findPost db mid = some p) :
    ∃ db1 r1,
      ValuePostModel.update_reactions db mid fire gem hundred = (db1, r1) ∧
      ValuePostModel.update_reactions db1 mid fire gem hundred =
        (db1, some (some (reactionWrite fire gem hundred p))) := by
  refine ⟨_, _, rfl, ?_⟩
  exact update_reactions_second_noop db _ mid fire gem hundred p hp
    (update_reactions_posts_found db mid fire gem hundred p hp)

/-- C6 witness: the idempotence theorem applied to the concrete
database with a tracked post and the snapshot (4, 4, 2). -/
theorem C6_witness :
    ∃ db1 r1,
      ValuePostModel.update_reactions vpDB 100 4 4 2 = (db1, r1) ∧
      ValuePostModel.update_reactions db1 100 4 4 2 =
        (db1, some (some (reactionWrite 4 4 2 exPost))) :=
  C6_recompute_idempotent vpDB 100 4 4 2 exPost (by decide)

/-! ## C7 -/

/-- Success shape of `award_daily_point`: when the day's record is at
or past the threshold with the flag unset and the user row exists, the
flag is set, one point is credited, and a history entry appended. -/
theorem award_success_shape (db : DB) (uid today : Int) (rec : ActivityRow)
    (u : UserRow) (hrec : findActivity db uid today = some rec)
    (hflag : rec.points_awarded = 0) (hcnt : 3 ≤ rec.message_count)
    (hu : UserModel.get_by_id db uid = some u) :
    DailyActivityModel.award_daily_point db uid today =
      ({ db with
          daily_activity := db.daily_activity.map (fun a =>
            if a.id == rec.id then { a with points_awarded := 1 } else a),
          users := db.users.map (fun v =>
            if v.user_id == uid then
              { v with
                  total_points := u.total_points + 1,
                  tier := UserModel.calculate_tier (u.total_points + 1) }
            else v),
          points_history := db.points_history ++
            [⟨uid, 1, "Daily activity"⟩] },
        some true) := by
  have hcond : (rec.points_awarded == 0 &&
      decide (3 ≤ rec.message_count)) = true := by
    simp [hflag, hcnt]
  have hu1 : UserModel.get_by_id { db with
      daily_activity := db.daily_activity.map (fun (a : ActivityRow) =>
        if a.id == rec.id then { a with points_awarded := 1 } else a) } uid =
      some u := hu
  simp only [DailyActivityModel.award_daily_point, hrec, hcond, if_true,
    UserModel.update_points, hu1]

/-- C7: the daily activity point is granted iff the day's record
exists, its one-shot flag is unset and its message count has reached
the threshold 3; a successful grant credits exactly one point, sets
the flag, and makes every further call that day a no-op that grants
nothing; calls before the threshold (or after the flag is set) grant
nothing and change nothing. -/
theorem C7_daily_point_once (db : DB) (uid today : Int) (u : UserRow)
    (hu : UserModel.get_by_id db uid = some u) :
    (findActivity db uid today = none →
      DailyActivityModel.award_daily_point db uid today = (db, some false)) ∧
    (∀ rec, findActivity db uid today = some rec →
      (rec.points_awarded = 0 → 3 ≤ rec.message_count →
        ∃ db', DailyActivityModel.award_daily_point db uid today =
            (db', some true) ∧
          userPoints db' uid = some (u.total_points + 1,
            UserModel.calculate_tier (u.total_points + 1)) ∧
          (∃ rec', findActivity db' uid today = some rec' ∧
            rec'.points_awarded = 1) ∧
          DailyActivityModel.award_daily_point db' uid today =
            (db', some false)) ∧
      (¬ (rec.points_awarded = 0 ∧ 3 ≤ rec.message_count) →
        DailyActivityModel.award_daily_point db uid today = (db, some false))) := by
  constructor
  · intro hnone
    simp only [DailyActivityModel.award_daily_point, hnone]
  · intro rec hrec
    constructor
    · intro hflag hcnt
      refine ⟨_, award_success_shape db uid today rec u hrec hflag hcnt hu,
        ?_, ?_, ?_⟩
      · simp only [userPoints, UserModel.get_by_id]
        rw [find?_update_found db.users (fun v => v.user_id == uid)
          (fun v => { v with
              total_points := u.total_points + 1,
              tier := UserModel.calculate_tier (u.total_points + 1) }) u hu
          (fun _ => rfl)]
        rfl
      · refine ⟨{ rec with points_awarded := 1 }, ?_, rfl⟩
        rw [findActivity]
        rw [find?_map_pres _ _ _ (fun a => by
          by_cases ha : (a.id == rec.id) = true <;> simp [ha])]
        rw [show db.daily_activity.find? (fun a =>
          a.user_id == uid && a.activity_date == today) = some rec from hrec]
        simp
      · have hfind2 : findActivity { db with
            daily_activity := db.daily_activity.map (fun a =>
              if a.id == rec.id then { a with points_awarded := 1 } else a),
            users := db.users.map (fun v =>
              if v.user_id == uid then
                { v with
                    total_points := u.total_points + 1,
                    tier := UserModel.calculate_tier (u.total_points + 1) }
              else v),
            points_history := db.points_history ++
              [⟨uid, 1, "Daily activity"⟩] } uid today =
            some { rec with points_awarded := 1 } := by
          rw [findActivity]
          rw [find?_map_pres _ _ _ (fun a => by
            by_cases ha : (a.id == rec.id) = true <;> simp [ha])]
          rw [show db.daily_activity.find? (fun a =>
            a.user_id == uid && a.activity_date == today) = some rec from hrec]
          simp
        simp only [DailyActivityModel.award_daily_point, hfind2]
        rfl
    · intro hnot
      have hcond : (rec.points_awarded == 0 &&
          decide (3 ≤ rec.message_count)) = false := by
        rcases not_and_or.mp hnot with h | h
        · simp [h]
        · simp [h]
      simp only [DailyActivityModel.award_daily_point, hrec, hcond,
        Bool.false_eq_true, if_false]

/-- C7 witness: the theorem applied both to a database with no
activity record (nothing granted) and to one with an at-threshold
unawarded record (granted once, then never again that day). -/
theorem C7_witness :
    DailyActivityModel.award_daily_point vpDB 1 40 = (vpDB, some false) ∧
    (∃ db', DailyActivityModel.award_daily_point actDB 1 40 =
        (db', some true) ∧
      userPoints db' 1 = some (exUser.total_points + 1,
        UserModel.calculate_tier (exUser.total_points + 1)) ∧
      (∃ rec', findActivity db' 1 40 = some rec' ∧
        rec'.points_awarded = 1) ∧
      DailyActivityModel.award_daily_point db' 1 40 = (db', some false)) :=
  ⟨(C7_daily_point_once vpDB 1 40 exUser (by decide)).1 (by decide),
   ((C7_daily_point_once actDB 1 40 exUser (by decide)).2 exActivity
      (by decide)).1 rfl (by decide)⟩

/-! ## C8 -/

/-- C8: for an author at or above `MAX_VALUE_POSTS_PER_DAY` same-day
tracked posts, a new message in the tracked channel is deleted with no
database write at all (in particular no ValuePost record is created
for it); for an author below the maximum a ValuePost record for the
message is created, dated today, with zero counts and zero points. -/
theorem C8_per_day_post_limit (db : DB) (mid uid cid today : Int)
    (name : String) :
    (ValuePostModel.get_user_posts_today db uid today ≥
        MAX_VALUE_POSTS_PER_DAY →
      Leaderboard.on_message db mid uid cid today name =
        (db, PostOutcome.blocked)) ∧
    (ValuePostModel.get_user_posts_today db uid today <
        MAX_VALUE_POSTS_PER_DAY → findPost db mid = none →
      (Leaderboard.on_message db mid uid cid today name).2 =
        PostOutcome.tracked ∧
      findPost (Leaderboard.on_message db mid uid cid today name).1 mid =
        some { user_id := uid, message_id := mid, channel_id := cid,
               post_date := today, fire_count := 0, gem_count := 0,
               hundred_count := 0, is_pinned := false,
               total_points := 0 }) := by
  constructor
  · intro hge
    simp only [Leaderboard.on_message, if_pos hge]
  · intro hlt hnone
    have hnge : ¬ (ValuePostModel.get_user_posts_today db uid today ≥
        MAX_VALUE_POSTS_PER_DAY) := not_le.mpr hlt
    have hnone1 : findPost (UserModel.get_or_create db uid name).1 mid =
        none := by
      rw [findPost, get_or_create_value_posts]
      exact hnone
    simp only [Leaderboard.on_message, if_neg hnge,
      ValuePostModel.create_or_update, hnone1]
    refine ⟨by trivial, ?_⟩
    rw [findPost]
    rw [show ({ (UserModel.get_or_create db uid name).1 with
        value_posts := (UserModel.get_or_create db uid name).1.value_posts ++
          [({ user_id := uid, message_id := mid, channel_id := cid,
              post_date := today, fire_count := 0, gem_count := 0,
              hundred_count := 0, is_pinned := false,
              total_points := 0 } : ValuePostRow)] } : DB).value_posts =
      (UserModel.get_or_create db uid name).1.value_posts ++
        [({ user_id := uid, message_id := mid, channel_id := cid,
            post_date := today, fire_count := 0, gem_count := 0,
            hundred_count := 0, is_pinned := false,
            total_points := 0 } : ValuePostRow)] from rfl]
    rw [find?_append_none _ _ _ (by rw [findPost] at hnone1; exact hnone1)]
    simp

/-- C8 witness: the theorem applied to the database where the author
already has two same-day posts (message deleted, nothing written) and
to the database where the author has one (record created). -/
theorem C8_witness :
    Leaderboard.on_message limitDB 102 1 500 40 "alice" =
      (limitDB, PostOutcome.blocked) ∧
    ((Leaderboard.on_message vpDB 102 1 500 40 "alice").2 =
      PostOutcome.tracked ∧
    findPost (Leaderboard.on_message vpDB 102 1 500 40 "alice").1 102 =
      some { user_id := 1, message_id := 102, channel_id := 500,
             post_date := 40, fire_count := 0, gem_count := 0,
             hundred_count := 0, is_pinned := false, total_points := 0 }) :=
  ⟨(C8_per_day_post_limit limitDB 102 1 500 40 "alice").1 (by decide),
   (C8_per_day_post_limit vpDB 102 1 500 40 "alice").2 (by decide)
     (by decide)⟩

/-! ## C5 -/

/-- `get_or_create` on an existing user returns the database unchanged
together with the existing row. -/
theorem get_or_create_found (db : DB) (uid : Int) (name : String)
    (u : UserRow) (hu : UserModel.get_by_id db uid = some u) :
    UserModel.get_or_create db uid name = (db, u) := by
  simp only [UserModel.get_or_create,
    show db.users.find? (fun v => v.user_id == uid) = some u from hu]

/-- `track_activity` touches only the `daily_activity` table. -/
theorem track_activity_preserves (db : DB) (uid today : Int) :
    (DailyActivityModel.track_activity db uid today).1.users = db.users ∧
    (DailyActivityModel.track_activity db uid today).1.value_posts =
      db.value_posts := by
  simp only [DailyActivityModel.track_activity]
  cases findActivity db uid today <;> exact ⟨rfl, rfl⟩

/-- C5: every listed handler call path passes the keyword argument
`bot` to a model function whose parameter list does not contain it, so
the call raises `TypeError` at binding time (`bindsOk` is `false` for
all three callees); the handler's generic except branch catches it and
no points, tier, or reaction-count change is persisted: the admin
commands return the database unchanged with an error, the
daily-activity path persists only the tracking write, the reaction
handler and the positive-points delete path leave the database
untouched, and the pin handler preserves every user row, every history
entry and the points projection of every post (only `is_pinned` flags
may change). -/
theorem C5_bot_kwarg_type_error (db : DB) (uid today pts : Int)
    (name reason : String) (u : UserRow)
    (hu : UserModel.get_by_id db uid = some u)
    (hpts : 0 < pts) (hle : pts ≤ u.total_points) :
    bindsOk update_points_params 3 ["bot"] = false ∧
    bindsOk award_daily_point_params 1 ["bot"] = false ∧
    bindsOk update_reactions_params 4 ["bot"] = false ∧
    Admin.add_points db uid name pts reason = (db, Outcome.errorCaught) ∧
    Admin.remove_points db uid name pts reason = (db, Outcome.errorCaught) ∧
    Admin.set_points db uid name pts reason = (db, Outcome.errorCaught) ∧
    ((Members.on_message db uid today name).users = db.users ∧
      (Members.on_message db uid today name).value_posts =
        db.value_posts) ∧
    (∀ mid fire gem hundred,
      Leaderboard.handle_reaction_change db mid fire gem hundred = db) ∧
    (∀ mid post, findPost db mid = some post → 0 < post.total_points →
      Leaderboard.on_raw_message_delete db mid = db) ∧
    (∀ cid pinned_ids,
      (Leaderboard.on_guild_channel_pins_update db cid pinned_ids).users =
        db.users ∧
      postCounts (Leaderboard.on_guild_channel_pins_update db cid
        pinned_ids) = postCounts db ∧
      (Leaderboard.on_guild_channel_pins_update db cid
        pinned_ids).points_history = db.points_history) := by
  have hgoc := get_or_create_found db uid name u hu
  refine ⟨rfl, rfl, rfl, ?_, ?_, ?_, ?_, ?_, ?_, ?_⟩
  · simp only [Admin.add_points, if_neg (not_le.mpr hpts), hgoc,
      show bindsOk update_points_params 3 ["bot"] = false from rfl,
      Bool.false_eq_true, if_false]
  · simp only [Admin.remove_points, if_neg (not_le.mpr hpts), hgoc,
      if_neg (not_lt.mpr hle),
      show bindsOk update_points_params 3 ["bot"] = false from rfl,
      Bool.false_eq_true, if_false]
  · simp only [Admin.set_points, if_neg (not_lt.mpr hpts.le), hgoc,
      show bindsOk update_points_params 3 ["bot"] = false from rfl,
      Bool.false_eq_true, if_false]
  · have hmm : Members.on_message db uid today name =
        (DailyActivityModel.track_activity db uid today).1 := by
      simp only [Members.on_message, hgoc,
        show bindsOk award_daily_point_params 1 ["bot"] = false from rfl,
        Bool.false_eq_true, if_false]
    rw [hmm]
    exact track_activity_preserves db uid today
  · intro mid fire gem hundred
    rfl
  · intro mid post hpost hpos
    simp only [Leaderboard.on_raw_message_delete, hpost, if_pos hpos,
      show bindsOk update_points_params 3 ["bot"] = false from rfl,
      Bool.false_eq_true, if_false]
  · intro cid pinned_ids
    refine ⟨(pinsLoop_preserves pinned_ids _ db).1,
      (pinsLoop_preserves pinned_ids _ db).2.2,
      (pinsLoop_preserves pinned_ids _ db).2.1⟩

/-- C5 witness: the theorem applied to the concrete database with one
user at 45 points, removing/adding/setting 5 points. -/
theorem C5_witness :
    bindsOk update_points_params 3 ["bot"] = false ∧
    bindsOk award_daily_point_params 1 ["bot"] = false ∧
    bindsOk update_reactions_params 4 ["bot"] = false ∧
    Admin.add_points exDB 1 "alice" 5 "r" = (exDB, Outcome.errorCaught) ∧
    Admin.remove_points exDB 1 "alice" 5 "r" = (exDB, Outcome.errorCaught) ∧
    Admin.set_points exDB 1 "alice" 5 "r" = (exDB, Outcome.errorCaught) ∧
    ((Members.on_message exDB 1 40 "alice").users = exDB.users ∧
      (Members.on_message exDB 1 40 "alice").value_posts =
        exDB.value_posts) ∧
    (∀ mid fire gem hundred,
      Leaderboard.handle_reaction_change exDB mid fire gem hundred = exDB) ∧
    (∀ mid post, findPost exDB mid = some post → 0 < post.total_points →
      Leaderboard.on_raw_message_delete exDB mid = exDB) ∧
    (∀ cid pinned_ids,
      (Leaderboard.on_guild_channel_pins_update exDB cid pinned_ids).users =
        exDB.users ∧
      postCounts (Leaderboard.on_guild_channel_pins_update exDB cid
        pinned_ids) = postCounts exDB ∧
      (Leaderboard.on_guild_channel_pins_update exDB cid
        pinned_ids).points_history = exDB.points_history) :=
  C5_bot_kwarg_type_error exDB 1 40 5 "alice" "r" exUser (by decide)
    (by decide) (by decide)

end RunItUp
